import Mathlib

/-!
Shallow embedding of the agent-007 repository's normalization core:
the tool schema/export layer and tool-call normalizer (`src/ai_agent/tools/tools_base.py`),
the agent loop (`src/core/agent/agent.py`), the provider factory
(`src/ai_agent/providers/providerfactory.py`) and the provider adapters
(`src/core/providers/claude.py`, `src/core/providers/gemini.py`,
`src/ai_agent/providers/openrouter.py`).

Python exceptions are modelled by the error side of `Except String`;
Python `None` by `Option.none`; Python dicts by structures whose optional
fields model `.get`-style access.  Provider `chat` methods all contain a
`yield` statement, so in Python they are generator functions: we model a
call to one as a `GenResult` carrying the list of yielded chunks and the
generator's `return` value (the `StopIteration` value, which a `for` loop
discards).
-/

namespace Agent007

/-- A JSON-like value, as produced by `json.loads` / held in Python dicts. -/
inductive JValue where
  | null
  | jbool (b : Bool)
  | jnum (n : Int)
  | jstr (s : String)
  | jarr (elems : List JValue)
  | jobj (fields : List (String × JValue))
deriving Repr

/-! ## tools_base.py : tool registry and schema export -/

/-- `ToolDefinition` (tools_base.py lines 34-37): name, description,
JSON-schema parameters. -/
structure ToolDefinition where
  name : String
  description : String
  parameters : JValue
deriving Repr

/-- One entry of `REGISTERED_TOOLS`: the `tool` decorator (tools_base.py
lines 47-54) stores the function under key `fn.__name__` and attaches
`fn.__tool_schema__` whose `name` field is also `fn.__name__`, so the
registry key always equals `schema.name`.  The handler models the Python
callable; its `Except.error` side models an exception raised by the
handler. -/
structure RegisteredTool where
  schema : ToolDefinition
  handler : JValue → Except String JValue

/-- The registry's key list, in insertion order (Python dicts preserve
insertion order). -/
def registryNames (reg : List RegisteredTool) : List String :=
  reg.map (fun t => t.schema.name)

/-- One entry of the OpenAI export: `{"type": "function", "function": schema}`
(tools_base.py lines 111-114). -/
structure OpenAIToolEntry where
  type : String
  function : ToolDefinition
deriving Repr

/-- `openai_tools_format` (tools_base.py lines 105-115). -/
def openai_tools_format (reg : List RegisteredTool) : List OpenAIToolEntry :=
  reg.map (fun t => { type := "function", function := t.schema })

/-- One entry of the Anthropic export: `{"name", "description", "input_schema"}`
(tools_base.py lines 133-137). -/
structure AnthropicToolEntry where
  name : String
  description : String
  input_schema : JValue
deriving Repr

/-- `anthropic_tools_format` (tools_base.py lines 118-138). -/
def anthropic_tools_format (reg : List RegisteredTool) : List AnthropicToolEntry :=
  reg.map (fun t =>
    { name := t.schema.name
      description := t.schema.description
      input_schema := t.schema.parameters })

/-- One entry of the Gemini export: `{"name", "description", "parameters"}`
(tools_base.py lines 151-155). -/
structure GeminiToolEntry where
  name : String
  description : String
  parameters : JValue
deriving Repr

/-- `gemini_tools_format` (tools_base.py lines 141-157). -/
def gemini_tools_format (reg : List RegisteredTool) : List GeminiToolEntry :=
  reg.map (fun t =>
    { name := t.schema.name
      description := t.schema.description
      parameters := t.schema.parameters })

/-- Read the `ToolDefinition` back out of an OpenAI export entry. -/
def openaiEntryDef (e : OpenAIToolEntry) : ToolDefinition := e.function

/-- Read the `ToolDefinition` back out of an Anthropic export entry. -/
def anthropicEntryDef (e : AnthropicToolEntry) : ToolDefinition :=
  { name := e.name, description := e.description, parameters := e.input_schema }

/-- Read the `ToolDefinition` back out of a Gemini export entry. -/
def geminiEntryDef (e : GeminiToolEntry) : ToolDefinition :=
  { name := e.name, description := e.description, parameters := e.parameters }

/-! ## tools_base.py : normalize_tool_calls -/

/-- The `function` field of an OpenAI-style tool-call entry:
`tc["function"]["name"]` and `tc["function"].get("arguments", {})`
(tools_base.py lines 193-194).  `arguments` is optional because the code
uses `.get` with default `{}`; note the value is whatever the payload holds
(for OpenAI wire payloads, a JSON-encoded *string*). -/
structure OpenAIFunctionField where
  name : String
  arguments : Option JValue
deriving Repr

/-- One entry of an OpenAI-style `tool_calls` array. -/
structure OpenAIToolCallEntry where
  function : OpenAIFunctionField
deriving Repr

/-- One Anthropic content block (tools_base.py lines 204-210):
`item.get("type")`, `item["name"]`, `item.get("input", {})`.  `name` is
modelled as present (it is only read on `tool_use` blocks, which carry it). -/
structure AnthropicBlock where
  type : Option String
  name : String
  input : Option JValue
deriving Repr

/-- One Gemini response part (tools_base.py lines 218-224):
`hasattr(p, "function_call")`, `p.function_call.name`, `p.function_call.args`. -/
structure GeminiPart where
  hasFunctionCall : Bool
  fcName : String
  fcArgs : JValue
deriving Repr

/-- `candidate.content.parts` for a Gemini candidate. -/
structure GeminiCandidate where
  parts : List GeminiPart
deriving Repr

/-- A raw provider payload handed to `normalize_tool_calls`: either Python
`None`, or an object/dict whose optional fields model `raw.get("tool_calls")`,
`raw.get("content")`, and the `raw.candidates` attribute (absent field =
missing key / missing attribute). -/
inductive RawPayload where
  | pynone
  | pyobj (tool_calls : Option (List OpenAIToolCallEntry))
          (content : Option (List AnthropicBlock))
          (candidates : Option (List GeminiCandidate))
deriving Repr

/-- The original payload entry kept in the `raw` field of a normalized call. -/
inductive RawEntry where
  | openaiE (tc : OpenAIToolCallEntry)
  | anthropicE (b : AnthropicBlock)
  | geminiE (p : GeminiPart)
deriving Repr

/-- `NormalizedToolCall`: `{"tool_name", "arguments", "raw"}`
(tools_base.py lines 171-178). -/
structure NormalizedToolCall where
  tool_name : String
  arguments : JValue
  raw : RawEntry
deriving Repr

/-- Whether a JSON value is an object, i.e. a mapping of names to values. -/
def JValue.isObjV : JValue → Bool
  | .jobj _ => true
  | _ => false

/-- `normalize_tool_calls` (tools_base.py lines 169-227).  The `Except.error`
side models a Python exception escaping the function: the Gemini branch
dereferences `raw.candidates[0].content.parts` with no guard, so a payload
without that structure raises. -/
def normalize_tool_calls (provider : String) (raw : RawPayload) :
    Except String (List NormalizedToolCall) :=
  match raw with
  | .pynone => .ok []
  | .pyobj tool_calls content candidates =>
    if provider ∈ ["openai", "groq", "openrouter"] then
      .ok ((tool_calls.getD []).map (fun tc =>
        { tool_name := tc.function.name
          arguments := tc.function.arguments.getD (JValue.jobj [])
          raw := RawEntry.openaiE tc }))
    else if provider = "anthropic" then
      .ok ((content.getD []).filterMap (fun item =>
        if item.type = some "tool_use" then
          some { tool_name := item.name
                 arguments := item.input.getD (JValue.jobj [])
                 raw := RawEntry.anthropicE item }
        else none))
    else if provider = "gemini" then
      match candidates with
      | none => .error "AttributeError: payload has no attribute candidates"
      | some [] => .error "IndexError: list index out of range"
      | some (c :: _) =>
        .ok (c.parts.filterMap (fun p =>
          if p.hasFunctionCall then
            some { tool_name := p.fcName
                   arguments := p.fcArgs
                   raw := RawEntry.geminiE p }
          else none))
    else
      .ok []

/-! ## tools_base.py : execute_tool -/

/-- `execute_tool` (tools_base.py lines 234-242): looks the name up in
`REGISTERED_TOOLS` and *raises* `ValueError` when it is missing; a handler
exception also propagates (there is no try/except). -/
def execute_tool (reg : List RegisteredTool) (tool_name : String)
    (arguments : JValue) : Except String JValue :=
  match reg.find? (fun t => t.schema.name = tool_name) with
  | none => .error ("ValueError: Tool `" ++ tool_name ++ "` not registered")
  | some t => t.handler arguments

/-! ## agent.py : Agent.execute_tool -/

/-- A tool-call object as the Agent expects it (agent.py lines 17-24):
`tool_call.function.name`, `tool_call.function.arguments` (a JSON-encoded
string) and `getattr(tool_call, "id", None)`. -/
structure AgentToolCall where
  functionName : String
  functionArguments : String
  id : Option String
deriving Repr

/-- `json.dumps({"error": msg})` as built by `Agent.execute_tool`
(agent.py lines 26, 34, 36).  Escaping of quote characters inside `msg`
is elided; no claim depends on it. -/
def jsonErrorRecord (msg : String) : String :=
  "\x7b\"error\": \"" ++ msg ++ "\"\x7d"

/-- `args.get(key, dflt)` on a parsed-JSON value (agent.py lines 30, 32).
Python raises `AttributeError` when `args` is not a dict; the Agent code
catches that into a `Tool execution failed` record. -/
def pyDictGet (v : JValue) (key : String) (dflt : JValue) :
    Except String JValue :=
  match v with
  | .jobj fields =>
    .ok ((((fields.find? (fun kv => kv.1 = key)).map Prod.snd)).getD dflt)
  | _ => .error "AttributeError: object has no attribute get"

/-- One wired collaborator call inside the second try block of
`Agent.execute_tool`: fetch `args.get("query", "")`, call the collaborator,
and wrap any exception into a `Tool execution failed` record (agent.py
lines 28-36).  The collaborators `query_database` / `search_wikipedia` are
imported from outside `src/`, so they are parameters here. -/
def runCollaborator (collab : JValue → Except String String) (args : JValue) :
    String :=
  match pyDictGet args "query" (JValue.jstr "") with
  | .error e => jsonErrorRecord ("Tool execution failed: " ++ e)
  | .ok q =>
    match collab q with
    | .ok r => r
    | .error e => jsonErrorRecord ("Tool execution failed: " ++ e)

/-- `Agent.execute_tool` (agent.py lines 17-36).  `parseJson` models
`json.loads`; its error side is caught into an `Invalid tool call object`
record.  The unknown-tool branch returns a JSON error record; no branch
lets an exception escape, matching the two try/except blocks. -/
def agentExecuteTool (parseJson : String → Except String JValue)
    (query_database search_wikipedia : JValue → Except String String)
    (tc : AgentToolCall) : String :=
  match parseJson tc.functionArguments with
  | .error e => jsonErrorRecord ("Invalid tool call object: " ++ e)
  | .ok args =>
    if tc.functionName = "query_database" then
      runCollaborator query_database args
    else if tc.functionName = "search_wikipedia" then
      runCollaborator search_wikipedia args
    else
      jsonErrorRecord ("Unknown tool: " ++ tc.functionName)

/-! ## agent.py : Agent.process_query (non-stream path) -/

/-- A conversation message (agent.py: dicts with `role`, `content`, and for
tool results `tool_call_id`). -/
structure Message where
  role : String
  content : Option String
  tool_call_id : Option String
deriving Repr

/-- The user message appended at the top of `process_query` (agent.py line 43). -/
def userMessage (s : String) : Message :=
  { role := "user", content := some s, tool_call_id := none }

/-- An assistant message as appended by `process_query`
(agent.py lines 65, 80). -/
def assistantMessage (s : String) : Message :=
  { role := "assistant", content := some s, tool_call_id := none }

/-- A tool-result message (agent.py lines 74-75). -/
def toolMessage (id : Option String) (content : String) : Message :=
  { role := "tool", content := some content, tool_call_id := id }

/-- The normalized non-stream response dict the loop reads
(agent.py lines 56-60): `content`, `tool_calls`, `finish_reason` via `.get`. -/
structure NormResponse where
  content : Option String
  tool_calls : Option (List AgentToolCall)
  finish_reason : Option String

/-- Python truthiness of `not tool_calls` (agent.py line 63): falsy when
`None` or the empty list. -/
def toolCallsEmpty : Option (List AgentToolCall) → Bool
  | none => true
  | some [] => true
  | some (_ :: _) => false

/-- The hard-coded partial-answer marker (agent.py line 78). -/
def iterationLimitMarker : String :=
  "Max tool-call iterations reached. Partial answer: "

/-- `final_msg` built at loop exhaustion (agent.py lines 78-79):
the marker followed by `last_response_content or ""`. -/
def iterationLimitMessage (last : String) : String :=
  iterationLimitMarker ++ last

/-- The `for _ in range(max_iterations)` loop of `process_query`
(agent.py lines 55-81), counted down structurally.  `llm` models
`self.llm.chat(messages=..., stream=False)` delivering the normalized
response dict; `execTool` is `self.execute_tool`.  Python appends to
`self.messages` in place; here the message list is threaded and the
result pairs the returned string with the final history. -/
def processQueryLoop (llm : List Message → NormResponse)
    (execTool : AgentToolCall → String) :
    Nat → List Message → String → String × List Message
  | 0, msgs, last =>
    let finalMsg := iterationLimitMessage last
    (finalMsg, msgs ++ [assistantMessage finalMsg])
  | n + 1, msgs, last =>
    let normalized := llm msgs
    if toolCallsEmpty normalized.tool_calls then
      let c := normalized.content.getD ""
      (c, msgs ++ [assistantMessage c])
    else
      let toolMsgs := (normalized.tool_calls.getD []).map
        (fun tc => toolMessage tc.id (execTool tc))
      processQueryLoop llm execTool n (msgs ++ toolMsgs) last

/-- `Agent.process_query` with `stream=False` (agent.py lines 38-81):
append the user message, then run the bounded loop with
`last_response_content = ""`.  The Agent's own `execute_tool` is used for
tool dispatch, parameterized by the external `json.loads` and the two
collaborators. -/
def process_query (parseJson : String → Except String JValue)
    (query_database search_wikipedia : JValue → Except String String)
    (llm : List Message → NormResponse)
    (history : List Message) (user_input : String)
    (max_iterations : Nat) : String × List Message :=
  processQueryLoop llm
    (agentExecuteTool parseJson query_database search_wikipedia)
    max_iterations (history ++ [userMessage user_input]) ""

/-- The Python signature defaults `max_iterations` to 5 (agent.py line 38);
a call that omits the argument runs with bound 5. -/
def process_query_default (parseJson : String → Except String JValue)
    (query_database search_wikipedia : JValue → Except String String)
    (llm : List Message → NormResponse)
    (history : List Message) (user_input : String) : String × List Message :=
  process_query parseJson query_database search_wikipedia llm history
    user_input 5

/-! ## Provider adapters : normalized response / chunk shapes -/

/-- Token usage as assembled by the adapters. -/
structure Usage where
  prompt_tokens : Option Int
  completion_tokens : Option Int
  total_tokens : Option Int
deriving Repr

/-- The normalized non-stream response dict an adapter builds (llm_provider.py
docstring; claude.py lines 66-73, gemini.py lines 67-74, openrouter.py
lines 58-65).  `response_time` (wall clock) and `raw` (the vendor object)
are elided: no claim depends on them. -/
structure ChatResponse where
  content : Option String
  tool_calls : Option (List AgentToolCall)
  finish_reason : Option String
  usage : Option Usage
deriving Repr

/-- A normalized stream chunk dict. -/
structure ChatChunk where
  delta : Option String
  tool_calls : Option (List AgentToolCall)
  finish_reason : Option String
deriving Repr

/-- The observable behaviour of calling a Python *generator function* and
iterating the generator: `yielded` is the sequence of yielded chunks and
`retval` the generator's `return` value, delivered only as the
`StopIteration` value (a plain `for` loop discards it).  Every provider
`chat` method in this repository contains a `yield`, so every call to one
produces such a generator. -/
structure GenResult where
  yielded : List ChatChunk
  retval : Option ChatResponse
deriving Repr

/-- Python `a or b` on two optional strings: `None` and `""` are falsy. -/
def pyOrStr (a b : Option String) : Option String :=
  match a with
  | some s => if s = "" then b else some s
  | none => b

/-! ## claude.py : ClaudeProvider.chat -/

/-- A raw Claude stream chunk (claude.py lines 34-39): `getattr` probes for
`delta`, `text`, `tool_calls`, `finish_reason`. -/
structure ClaudeRawChunk where
  delta : Option String
  text : Option String
  tool_calls : Option (List AgentToolCall)
  finish_reason : Option String
deriving Repr

/-- Chunk normalization (claude.py lines 34-39):
`getattr(chunk, "delta", None) or getattr(chunk, "text", None)`. -/
def claudeNormChunk (c : ClaudeRawChunk) : ChatChunk :=
  { delta := pyOrStr c.delta c.text
    tool_calls := c.tool_calls
    finish_reason := c.finish_reason }

/-- One item of `response.content`; `text = none` models an item without a
`.text` attribute (the `except` branch of claude.py lines 55-59). -/
structure ClaudeContentItem where
  text : Option String
deriving Repr

/-- Stands in for Python `str(response.content)` (claude.py line 59); the
exact rendering is irrelevant to every claim. -/
def pyStrContentList (xs : List ClaudeContentItem) : String :=
  "[" ++ String.intercalate ", " (xs.map (fun i => i.text.getD "None")) ++ "]"

/-- The raw non-stream Claude response, reduced to the fields the adapter
probes (claude.py lines 52-69): `content` (`None`/absent or a list of
items), `tool_calls`, `finish_reason`. -/
structure ClaudeRawResponse where
  content : Option (List ClaudeContentItem)
  tool_calls : Option (List AgentToolCall)
  finish_reason : Option String
deriving Repr

/-- Content extraction (claude.py lines 53-59): when
`getattr(response, "content", None)` is truthy, try `content[0].text`, and
on failure fall back to `str(response.content)`. -/
def claudeExtractContent (r : ClaudeRawResponse) : Option String :=
  match r.content with
  | none => none
  | some [] => none
  | some (first :: rest) =>
    match first.text with
    | some t => some t
    | none => some (pyStrContentList (first :: rest))

/-- The normalized dict built by the non-stream tail of `ClaudeProvider.chat`
(claude.py lines 66-73); `usage` is hard-coded `None` (line 64). -/
def claudeNonStream (r : ClaudeRawResponse) : ChatResponse :=
  { content := claudeExtractContent r
    tool_calls := r.tool_calls
    finish_reason := r.finish_reason
    usage := none }

/-- The vendor/SDK behaviour a Claude chat call observes: the chunks the
streaming attempt yields before an optional exception (`streamError = some e`
with `streamChunks = []` models `client.streaming.create` itself raising,
e.g. an SDK without streaming support), and the non-stream response. -/
structure ClaudeVendor where
  streamChunks : List ClaudeRawChunk
  streamError : Option String
  response : ClaudeRawResponse
deriving Repr

/-- `ClaudeProvider.chat` (claude.py lines 16-73) as a generator call.
With `stream=True` and a streaming failure, the `except` swallows the error
and control falls through to the non-stream request, whose dict is
*returned* from inside a generator — it becomes the `StopIteration` value,
never a yielded chunk.  With `stream=False` the same applies: the function
is still a generator function, so the dict is only ever the `retval`. -/
def claudeChat (v : ClaudeVendor) (stream : Bool) : GenResult :=
  if stream then
    match v.streamError with
    | none =>
      { yielded := v.streamChunks.map claudeNormChunk, retval := none }
    | some _ =>
      { yielded := v.streamChunks.map claudeNormChunk
        retval := some (claudeNonStream v.response) }
  else
    { yielded := [], retval := some (claudeNonStream v.response) }

/-! ## openrouter.py : OpenRouterProvider.chat -/

/-- `choice.delta` of a raw OpenRouter stream chunk (openrouter.py
lines 38-39): `.get("content")` / `.get("tool_calls")`. -/
structure ORDelta where
  content : Option String
  tool_calls : Option (List AgentToolCall)
deriving Repr

/-- The first choice of a raw OpenRouter stream chunk (openrouter.py
lines 36-42); `delta = none` models `hasattr(choice, "delta")` false. -/
structure ORRawChunk where
  delta : Option ORDelta
  finish_reason : Option String
deriving Repr

/-- Chunk normalization (openrouter.py lines 37-42). -/
def orNormChunk (c : ORRawChunk) : ChatChunk :=
  match c.delta with
  | some d =>
    { delta := d.content, tool_calls := d.tool_calls
      finish_reason := c.finish_reason }
  | none =>
    { delta := none, tool_calls := none, finish_reason := c.finish_reason }

/-- `choice.message` of the raw non-stream OpenRouter response. -/
structure ORMessage where
  content : Option String
  tool_calls : Option (List AgentToolCall)
deriving Repr

/-- The raw non-stream OpenRouter response reduced to the probed fields
(openrouter.py lines 55-64).  `message = none` models a choice without a
`message` attribute, where `msg = choice` and the subsequent `getattr`
probes for `content`/`tool_calls` on the choice come back `None`. -/
structure ORRawResponse where
  message : Option ORMessage
  finish_reason : Option String
  usage : Option Usage
deriving Repr

/-- The normalized dict built by the non-stream tail of
`OpenRouterProvider.chat` (openrouter.py lines 55-65). -/
def orNonStream (r : ORRawResponse) : ChatResponse :=
  match r.message with
  | some m =>
    { content := m.content, tool_calls := m.tool_calls
      finish_reason := r.finish_reason, usage := r.usage }
  | none =>
    { content := none, tool_calls := none
      finish_reason := r.finish_reason, usage := r.usage }

/-- The vendor behaviour an OpenRouter chat call observes (as for Claude). -/
structure ORVendor where
  streamChunks : List ORRawChunk
  streamError : Option String
  response : ORRawResponse
deriving Repr

/-- `OpenRouterProvider.chat` (openrouter.py lines 22-65) as a generator
call; the same fall-through-and-`return` pattern as `ClaudeProvider.chat`. -/
def orChat (v : ORVendor) (stream : Bool) : GenResult :=
  if stream then
    match v.streamError with
    | none =>
      { yielded := v.streamChunks.map orNormChunk, retval := none }
    | some _ =>
      { yielded := v.streamChunks.map orNormChunk
        retval := some (orNonStream v.response) }
  else
    { yielded := [], retval := some (orNonStream v.response) }

/-! ## gemini.py : GeminiProvider.chat -/

/-- A raw Gemini stream event (gemini.py lines 44-49). -/
structure GeminiRawEvent where
  text : Option String
  delta : Option String
  tool_calls : Option (List AgentToolCall)
  finish_reason : Option String
deriving Repr

/-- Event normalization (gemini.py lines 44-49):
`getattr(event, "text", None) or getattr(event, "delta", None)`. -/
def geminiNormEvent (e : GeminiRawEvent) : ChatChunk :=
  { delta := pyOrStr e.text e.delta
    tool_calls := e.tool_calls
    finish_reason := e.finish_reason }

/-- The raw `genai.generate` response reduced to the probed fields
(gemini.py lines 56-65).  The outer option of `text` models
`hasattr(resp, "text")`; `candidateOutput = none` models the `except`
branch of the `resp.candidates[0].output` access; `strRepr` stands in for
`str(resp)`. -/
structure GeminiRawResponse where
  text : Option (Option String)
  candidateOutput : Option String
  strRepr : String
deriving Repr

/-- Content extraction (gemini.py lines 58-65). -/
def geminiExtractContent (r : GeminiRawResponse) : Option String :=
  match r.text with
  | some t => t
  | none =>
    match r.candidateOutput with
    | some o => some o
    | none => some r.strRepr

/-- The normalized dict built by the non-stream tail of
`GeminiProvider.chat` (gemini.py lines 67-74): `tool_calls`,
`finish_reason` and `usage` are hard-coded `None`. -/
def geminiNonStream (r : GeminiRawResponse) : ChatResponse :=
  { content := geminiExtractContent r
    tool_calls := none
    finish_reason := none
    usage := none }

/-- Prompt selection (gemini.py lines 28-33): the content of the last
message whose role is `"user"`, else (when that is `None` or empty)
`messages[-1]["content"]` if messages is non-empty, else `""`. -/
def geminiPrompt (messages : List Message) : Option String :=
  let user_msg : Option String :=
    (messages.reverse.find? (fun m => m.role = "user")).bind (fun m => m.content)
  pyOrStr user_msg
    (match messages.getLast? with
     | some m => m.content
     | none => some "")

/-- The vendor behaviour a Gemini chat call observes: `generate` models
`genai.generate(model, prompt)` as a function of the prompt; the streaming
attempt behaves as for the other adapters. -/
structure GeminiVendor where
  streamEvents : List GeminiRawEvent
  streamError : Option String
  generate : Option String → GeminiRawResponse

/-- `GeminiProvider.chat` (gemini.py lines 17-74) as a generator call;
it contains a `yield` in the stream branch, so it too is a generator
function and its non-stream dict is only the `retval`. -/
def geminiChat (v : GeminiVendor) (messages : List Message) (stream : Bool) :
    GenResult :=
  if stream then
    match v.streamError with
    | none =>
      { yielded := v.streamEvents.map geminiNormEvent, retval := none }
    | some _ =>
      { yielded := v.streamEvents.map geminiNormEvent
        retval := some (geminiNonStream (v.generate (geminiPrompt messages))) }
  else
    { yielded := []
      retval := some (geminiNonStream (v.generate (geminiPrompt messages))) }

/-! ## providerfactory.py : ProviderFactory -/

/-- The adapter returned by the factory, tagged by vendor and carrying the
model identifier (providerfactory.py lines 10-17). -/
inductive Provider where
  | openaiP (model : String)
  | claudeP (model : String)
  | geminiP (model : String)
  | openrouterP (model : String)
deriving Repr, DecidableEq

/-- Python `str.lower()` on ASCII provider names (providerfactory.py
line 9), modelled as a character-wise lower-casing. -/
def pyLower (s : String) : String := ⟨s.data.map Char.toLower⟩

/-- `ProviderFactory` (providerfactory.py lines 8-19): lower-case the name,
match the four vendors, otherwise raise `ValueError` naming the original
string. -/
def ProviderFactory (provider_name model : String) : Except String Provider :=
  let p := pyLower provider_name
  if p = "openai" then .ok (.openaiP model)
  else if p = "claude" then .ok (.claudeP model)
  else if p = "gemini" then .ok (.geminiP model)
  else if p = "openrouter" then .ok (.openrouterP model)
  else .error ("Unknown provider: " ++ provider_name)

/-- The names `ProviderFactory` accepts. -/
def supportedProviders : List String :=
  ["openai", "claude", "gemini", "openrouter"]

/-! ## Concrete instances used to exercise the theorems -/

/-- A mocked model that always requests one tool call (the non-converging
scenario of spec section 8). -/
def alwaysToolCallLLM : List Message → NormResponse := fun _ =>
  { content := none
    tool_calls := some [{ functionName := "search_wikipedia"
                          functionArguments := "", id := some "call_1" }]
    finish_reason := some "tool_calls" }

/-- A mocked model that answers `"4"` with no tool calls (the 2+2 scenario
of spec section 8). -/
def answer4LLM : List Message → NormResponse := fun _ =>
  { content := some "4", tool_calls := some [], finish_reason := some "stop" }

/-- A trivial stand-in for `json.loads` that accepts everything. -/
def trivialParse : String → Except String JValue := fun _ =>
  .ok (JValue.jobj [])

/-- A trivial collaborator that always succeeds. -/
def trivialCollab : JValue → Except String String := fun _ => .ok "5"

/-! # Theorems -/

/-- C1 (counterexample): `execute_tool("nonexistent_tool", {})` does not
return a structured error result — it raises `ValueError`, contradicting
the claim that the executor never raises past its boundary. -/
theorem c1_counterexample :
    execute_tool [] "nonexistent_tool" (JValue.jobj []) =
      .error ("ValueError: Tool `nonexistent_tool` not registered") := rfl

/-- C1 (amended): for an unregistered tool name, `tools_base.execute_tool`
raises `ValueError` naming the tool, while `Agent.execute_tool` returns,
without raising, the structured JSON error record
`{"error": "Unknown tool: <name>"}` for any tool call whose function name
is not one of the two wired collaborators and whose arguments parse. -/
theorem c1_amended
    (reg : List RegisteredTool) (name : String) (args : JValue)
    (hreg : reg.find? (fun t => t.schema.name = name) = none)
    (parseJson : String → Except String JValue)
    (qdb wiki : JValue → Except String String)
    (tc : AgentToolCall) (v : JValue)
    (hparse : parseJson tc.functionArguments = .ok v)
    (h1 : tc.functionName ≠ "query_database")
    (h2 : tc.functionName ≠ "search_wikipedia") :
    execute_tool reg name args =
      .error ("ValueError: Tool `" ++ name ++ "` not registered") ∧
    agentExecuteTool parseJson qdb wiki tc =
      jsonErrorRecord ("Unknown tool: " ++ tc.functionName) := by
  constructor
  · simp [execute_tool, hreg]
  · simp [agentExecuteTool, hparse, h1, h2]

/-- C1 (witness): the amended behaviour at a concrete unregistered name. -/
theorem c1_amended_witness :
    execute_tool [] "other_tool" (JValue.jobj []) =
      .error ("ValueError: Tool `" ++ "other_tool" ++ "` not registered") ∧
    agentExecuteTool trivialParse trivialCollab trivialCollab
      { functionName := "other_tool", functionArguments := "", id := none } =
      jsonErrorRecord ("Unknown tool: " ++ "other_tool") :=
  c1_amended [] "other_tool" (JValue.jobj []) rfl
    trivialParse trivialCollab trivialCollab
    { functionName := "other_tool", functionArguments := "", id := none }
    (JValue.jobj []) rfl (by decide) (by decide)

/-- C3 (counterexample): the OpenAI normalizer does not parse the
JSON-encoded argument string.  For an entry whose argument string is the
well-formed JSON text of a one-key mapping, the produced record's
`arguments` is the verbatim string, not the parsed mapping. -/
theorem c3_counterexample :
    normalize_tool_calls "openai"
      (RawPayload.pyobj
        (some [{ function := { name := "add"
                               arguments := some (JValue.jstr "\x7b\"a\": 1\x7d") } }])
        none none) =
      .ok [{ tool_name := "add"
             arguments := JValue.jstr "\x7b\"a\": 1\x7d"
             raw := RawEntry.openaiE
               { function := { name := "add"
                               arguments := some (JValue.jstr "\x7b\"a\": 1\x7d") } } }] ∧
    (JValue.jstr "\x7b\"a\": 1\x7d").isObjV = false :=
  ⟨rfl, rfl⟩

/-- C3 (amended): `normalize("openai", payload)` returns exactly one record
per `tool_calls` entry, in input order, whose `tool_name` is the entry's
function name and whose `arguments` is the entry's argument value taken
verbatim (defaulting to `{}` when absent) — no JSON parsing occurs, so a
malformed argument string is passed through unchanged rather than raising
or dropping siblings. -/
theorem c3_amended (calls : List OpenAIToolCallEntry)
    (content : Option (List AnthropicBlock))
    (candidates : Option (List GeminiCandidate)) :
    ∃ recs,
      normalize_tool_calls "openai"
        (RawPayload.pyobj (some calls) content candidates) = .ok recs ∧
      recs.length = calls.length ∧
      recs.map (fun r => r.tool_name) = calls.map (fun tc => tc.function.name) ∧
      recs.map (fun r => r.arguments) =
        calls.map (fun tc => tc.function.arguments.getD (JValue.jobj [])) := by
  refine ⟨_, rfl, ?_, ?_, ?_⟩ <;>
    simp [List.map_map, Function.comp]

/-- C5 (counterexample): for the vendor tag `"gemini"`, a non-`None`
payload with no tool-call data (no `candidates` attribute at all) does not
normalize to the empty sequence — the unguarded access
`raw.candidates[0].content.parts` raises. -/
theorem c5_counterexample :
    normalize_tool_calls "gemini" (RawPayload.pyobj none none none) =
      .error "AttributeError: payload has no attribute candidates" := rfl

/-- C5 (amended): a `None` payload yields `[]` for every tag; for the
OpenAI-family tags, the anthropic tag and unknown tags every payload with
no tool-call data yields `[]` without error; for `"gemini"` only payloads
that do expose `candidates[0].content.parts` with no `function_call`
part yield `[]` — a payload without `candidates` raises. -/
theorem c5_amended :
    (∀ p, normalize_tool_calls p RawPayload.pynone = .ok []) ∧
    (∀ p ∈ ["openai", "groq", "openrouter"],
      ∀ content candidates,
        normalize_tool_calls p (RawPayload.pyobj none content candidates) =
          .ok [] ∧
        normalize_tool_calls p
          (RawPayload.pyobj (some []) content candidates) = .ok []) ∧
    (∀ tool_calls candidates,
      normalize_tool_calls "anthropic"
        (RawPayload.pyobj tool_calls none candidates) = .ok []) ∧
    (∀ tool_calls candidates blocks,
      (∀ b ∈ blocks, b.type ≠ some "tool_use") →
      normalize_tool_calls "anthropic"
        (RawPayload.pyobj tool_calls (some blocks) candidates) = .ok []) ∧
    (∀ tool_calls content,
      normalize_tool_calls "gemini" (RawPayload.pyobj tool_calls content none) =
        .error "AttributeError: payload has no attribute candidates") ∧
    (∀ tool_calls content parts rest,
      (∀ q ∈ parts, q.hasFunctionCall = false) →
      normalize_tool_calls "gemini"
        (RawPayload.pyobj tool_calls content
          (some ({ parts := parts } :: rest))) = .ok []) ∧
    (∀ p, p ∉ ["openai", "groq", "openrouter", "anthropic", "gemini"] →
      ∀ tool_calls content candidates,
        normalize_tool_calls p
          (RawPayload.pyobj tool_calls content candidates) = .ok []) := by
  refine ⟨?_, ?_, ?_, ?_, ?_, ?_, ?_⟩
  · intro p; rfl
  · intro p hp content candidates
    simp only [List.mem_cons, List.not_mem_nil, or_false] at hp
    rcases hp with rfl | rfl | rfl
    · exact ⟨rfl, rfl⟩
    · exact ⟨rfl, rfl⟩
    · exact ⟨rfl, rfl⟩
  · intro tool_calls candidates; rfl
  · intro tool_calls candidates blocks hb
    simp only [normalize_tool_calls, Option.getD_some]
    rw [if_pos trivial]
    refine congrArg Except.ok (List.filterMap_eq_nil_iff.mpr ?_)
    intro b hbmem
    simp [hb b hbmem]
  · intro tool_calls content; rfl
  · intro tool_calls content parts rest hp
    simp only [normalize_tool_calls]
    rw [if_pos trivial]
    refine congrArg Except.ok (List.filterMap_eq_nil_iff.mpr ?_)
    intro q hq
    simp [hp q hq]
  · intro p hp tool_calls content candidates
    simp only [List.mem_cons, List.not_mem_nil, or_false, not_or] at hp
    obtain ⟨h1, h2, h3, h4, h5⟩ := hp
    simp [normalize_tool_calls, h1, h2, h3, h4, h5]

/-- C5 (witness): the amended behaviour at concrete inputs — a text-only
anthropic payload, a function-call-free gemini candidate, and an unknown
tag. -/
theorem c5_amended_witness :
    normalize_tool_calls "anthropic"
      (RawPayload.pyobj none
        (some [{ type := some "text", name := "n", input := none }]) none) =
      .ok [] ∧
    normalize_tool_calls "gemini"
      (RawPayload.pyobj none none
        (some [{ parts := [{ hasFunctionCall := false, fcName := ""
                             fcArgs := JValue.null }] }])) = .ok [] ∧
    normalize_tool_calls "mistral" (RawPayload.pyobj none none none) =
      .ok [] :=
  ⟨c5_amended.2.2.2.1 none none
      [{ type := some "text", name := "n", input := none }] (by decide),
   c5_amended.2.2.2.2.2.1 none none
      [{ hasFunctionCall := false, fcName := "", fcArgs := JValue.null }] []
      (by decide),
   c5_amended.2.2.2.2.2.2 "mistral" (by decide) none none none⟩

/-- C8: for every registry state, the three schema exports list the same
tool names, in the registry's own order (hence equal name sets), and each
entry is exactly the registered definition's name, description and
parameters — recovering the full `ToolDefinition` from any entry gives
back the registered one, and the only extra datum is the constant
`"type": "function"` tag of the OpenAI shape. -/
theorem c8_schema_exports_consistent (reg : List RegisteredTool) :
    (openai_tools_format reg).map (fun e => e.function.name) =
      registryNames reg ∧
    (anthropic_tools_format reg).map (fun e => e.name) = registryNames reg ∧
    (gemini_tools_format reg).map (fun e => e.name) = registryNames reg ∧
    (openai_tools_format reg).map openaiEntryDef =
      reg.map (fun t => t.schema) ∧
    (anthropic_tools_format reg).map anthropicEntryDef =
      reg.map (fun t => t.schema) ∧
    (gemini_tools_format reg).map geminiEntryDef =
      reg.map (fun t => t.schema) ∧
    (openai_tools_format reg).map (fun e => e.type) =
      reg.map (fun _ => "function") := by
  refine ⟨?_, ?_, ?_, ?_, ?_, ?_, ?_⟩ <;>
    simp [openai_tools_format, anthropic_tools_format, gemini_tools_format,
      registryNames, openaiEntryDef, anthropicEntryDef, geminiEntryDef,
      List.map_map, Function.comp_def, List.map_const']

/-- C7: `ProviderFactory` matches the provider name case-insensitively —
any string whose lower-casing is a supported name yields that vendor's
adapter — and any other string fails with an error naming the offending
string verbatim. -/
theorem c7_provider_factory (s m : String) :
    (pyLower s = "openai" → ProviderFactory s m = .ok (.openaiP m)) ∧
    (pyLower s = "claude" → ProviderFactory s m = .ok (.claudeP m)) ∧
    (pyLower s = "gemini" → ProviderFactory s m = .ok (.geminiP m)) ∧
    (pyLower s = "openrouter" → ProviderFactory s m = .ok (.openrouterP m)) ∧
    (pyLower s ∉ supportedProviders →
      ProviderFactory s m = .error ("Unknown provider: " ++ s)) := by
  refine ⟨?_, ?_, ?_, ?_, ?_⟩ <;> intro h
  · simp [ProviderFactory, h]
  · simp [ProviderFactory, h]
  · simp [ProviderFactory, h]
  · simp [ProviderFactory, h]
  · simp only [supportedProviders, List.mem_cons, List.not_mem_nil, or_false,
      not_or] at h
    obtain ⟨h1, h2, h3, h4⟩ := h
    simp [ProviderFactory, h1, h2, h3, h4]

/-- C7 (witness): a mixed-case supported name and an unsupported name. -/
theorem c7_provider_factory_witness :
    ProviderFactory "OpenAI" "gpt-4o" = .ok (.openaiP "gpt-4o") ∧
    ProviderFactory "bedrock" "m" = .error ("Unknown provider: " ++ "bedrock") :=
  ⟨(c7_provider_factory "OpenAI" "gpt-4o").1 (by decide),
   (c7_provider_factory "bedrock" "m").2.2.2.2 (by decide)⟩

/-- C10: for every messages list and every vendor behaviour, the
non-stream path of `GeminiProvider.chat` builds a normalized response whose
`tool_calls`, `finish_reason` and `usage` are all `None` (and yields no
chunks), so no Gemini tool call ever reaches the Agent through this path. -/
theorem c10_gemini_surfaces_no_tool_calls (v : GeminiVendor)
    (messages : List Message) :
    (geminiChat v messages false).yielded = [] ∧
    (geminiChat v messages false).retval =
      some (geminiNonStream (v.generate (geminiPrompt messages))) ∧
    ((geminiChat v messages false).retval.map (fun r => r.tool_calls)) =
      some none ∧
    ((geminiChat v messages false).retval.map (fun r => r.finish_reason)) =
      some none ∧
    ((geminiChat v messages false).retval.map (fun r => r.usage)) =
      some none :=
  ⟨rfl, rfl, rfl, rfl, rfl⟩

/-- C6: evaluating the Claude and OpenRouter adapters at a failing
streaming input (`stream=True`, vendor streaming raises before any chunk).
Both `chat` bodies catch the failure and perform the non-stream request,
but because each `chat` is a generator function, the fallback dict is the
generator's `return` value: the iteration yields zero chunks — neither one
chunk wrapping the response nor a directly returned non-stream response —
so a caller consuming the stream with a `for` loop never receives the
fallback response. -/
theorem c6_stream_fallback_loses_response :
    (claudeChat
        { streamChunks := []
          streamError := some "AttributeError: streaming"
          response := { content := some [{ text := some "hello" }]
                        tool_calls := none
                        finish_reason := some "end_turn" } }
        true) =
      { yielded := []
        retval := some { content := some "hello", tool_calls := none
                         finish_reason := some "end_turn", usage := none } } ∧
    (orChat
        { streamChunks := []
          streamError := some "TypeError: streaming"
          response := { message := some { content := some "hi"
                                          tool_calls := none }
                        finish_reason := some "stop", usage := none } }
        true) =
      { yielded := []
        retval := some { content := some "hi", tool_calls := none
                         finish_reason := some "stop", usage := none } } :=
  ⟨rfl, rfl⟩

/-- C2: whenever the first normalized response of the turn carries zero
tool calls (`None` or `[]`), `process_query` appends exactly one assistant
message — its content the response content, the empty string when the
content is null — after the user message, and returns that content. -/
theorem c2_no_tool_calls_returns_content
    (parseJson : String → Except String JValue)
    (qdb wiki : JValue → Except String String)
    (llm : List Message → NormResponse)
    (history : List Message) (input : String) (n : Nat)
    (h : toolCallsEmpty (llm (history ++ [userMessage input])).tool_calls =
      true) :
    process_query parseJson qdb wiki llm history input (n + 1) =
      ((llm (history ++ [userMessage input])).content.getD "",
        history ++ [userMessage input,
          assistantMessage
            ((llm (history ++ [userMessage input])).content.getD "")]) := by
  simp [process_query, processQueryLoop, h]

/-- C2 (witness): the mocked 2+2 scenario — system prompt, user question,
response `content = "4"` with `tool_calls = []` — returns exactly `"4"`
and the history ends with the single assistant message `"4"`. -/
theorem c2_witness :
    process_query trivialParse trivialCollab trivialCollab answer4LLM
      [{ role := "system", content := some "You are a helpful assistant."
         tool_call_id := none }]
      "What is 2+2?" 5 =
      ("4",
        [{ role := "system", content := some "You are a helpful assistant."
           tool_call_id := none },
         userMessage "What is 2+2?", assistantMessage "4"]) :=
  c2_no_tool_calls_returns_content trivialParse trivialCollab trivialCollab
    answer4LLM
    [{ role := "system", content := some "You are a helpful assistant."
       tool_call_id := none }]
    "What is 2+2?" 4 rfl

/-- Helper for C4: when every normalized response carries at least one tool
call, the loop exhausts its budget, appends only tool-role messages plus a
final assistant message carrying the partial-answer text, and returns that
text. -/
theorem processQueryLoop_all_tool_calls
    (llm : List Message → NormResponse) (execTool : AgentToolCall → String)
    (h : ∀ ms, toolCallsEmpty (llm ms).tool_calls = false) :
    ∀ (n : Nat) (msgs : List Message) (last : String),
      ∃ t, processQueryLoop llm execTool n msgs last =
        (iterationLimitMessage last,
          msgs ++ t ++ [assistantMessage (iterationLimitMessage last)]) := by
  intro n
  induction n with
  | zero =>
    intro msgs last
    exact ⟨[], by simp [processQueryLoop]⟩
  | succ n ih =>
    intro msgs last
    obtain ⟨t, ht⟩ := ih
      (msgs ++ ((llm msgs).tool_calls.getD []).map
        (fun tc => toolMessage tc.id (execTool tc))) last
    refine ⟨((llm msgs).tool_calls.getD []).map
      (fun tc => toolMessage tc.id (execTool tc)) ++ t, ?_⟩
    simp only [processQueryLoop, h msgs, Bool.false_eq_true, if_false, ht,
      List.append_assoc]

/-- C4: with every one of the `max_iterations` responses carrying at least
one tool call, `process_query` returns a string starting with the
partial-answer marker, the last history message is the assistant message
with exactly that content, and omitting the bound argument runs with the
default bound 5. -/
theorem c4_iteration_limit
    (parseJson : String → Except String JValue)
    (qdb wiki : JValue → Except String String)
    (llm : List Message → NormResponse)
    (history : List Message) (input : String) (n : Nat)
    (h : ∀ ms, toolCallsEmpty (llm ms).tool_calls = false) :
    (∃ rest, (process_query parseJson qdb wiki llm history input n).1 =
      iterationLimitMarker ++ rest) ∧
    (process_query parseJson qdb wiki llm history input n).2.getLast? =
      some (assistantMessage
        (process_query parseJson qdb wiki llm history input n).1) ∧
    process_query_default parseJson qdb wiki llm history input =
      process_query parseJson qdb wiki llm history input 5 := by
  obtain ⟨t, ht⟩ := processQueryLoop_all_tool_calls llm
    (agentExecuteTool parseJson qdb wiki) h n
    (history ++ [userMessage input]) ""
  have hq : process_query parseJson qdb wiki llm history input n =
      (iterationLimitMessage "",
        history ++ [userMessage input] ++ t ++
          [assistantMessage (iterationLimitMessage "")]) := ht
  refine ⟨⟨"", by rw [hq]; rfl⟩, ?_, rfl⟩
  rw [hq]
  show (history ++ [userMessage input] ++ t ++
      [assistantMessage (iterationLimitMessage "")]).getLast? =
    some (assistantMessage (iterationLimitMessage ""))
  exact List.getLast?_concat _

/-- C4 (witness): the non-converging scenario with `max_iterations = 3`:
the returned string starts with the marker and the history's last message
is the assistant message carrying it. -/
theorem c4_witness :
    (process_query trivialParse trivialCollab trivialCollab alwaysToolCallLLM
        [] "q" 3).2.getLast? =
      some (assistantMessage
        (process_query trivialParse trivialCollab trivialCollab
          alwaysToolCallLLM [] "q" 3).1) :=
  (c4_iteration_limit trivialParse trivialCollab trivialCollab
    alwaysToolCallLLM [] "q" 3 (fun _ => rfl)).2.1

/-- Helper for C9: the loop only ever appends to the message list. -/
theorem processQueryLoop_appends
    (llm : List Message → NormResponse) (execTool : AgentToolCall → String) :
    ∀ (n : Nat) (msgs : List Message) (last : String),
      ∃ t, (processQueryLoop llm execTool n msgs last).2 = msgs ++ t := by
  intro n
  induction n with
  | zero =>
    intro msgs last
    exact ⟨[assistantMessage (iterationLimitMessage last)], rfl⟩
  | succ n ih =>
    intro msgs last
    by_cases h : toolCallsEmpty (llm msgs).tool_calls = true
    · exact ⟨[assistantMessage ((llm msgs).content.getD "")],
        by simp [processQueryLoop, h]⟩
    · rw [Bool.not_eq_true] at h
      obtain ⟨t, ht⟩ := ih
        (msgs ++ ((llm msgs).tool_calls.getD []).map
          (fun tc => toolMessage tc.id (execTool tc))) last
      refine ⟨((llm msgs).tool_calls.getD []).map
        (fun tc => toolMessage tc.id (execTool tc)) ++ t, ?_⟩
      simp only [processQueryLoop, h, Bool.false_eq_true, if_false, ht,
        List.append_assoc]

/-- C9: the history is append-only — for every model behaviour, input and
bound, the history after the turn is the history before the turn followed
by newly appended messages; the old prefix is preserved unchanged. -/
theorem c9_history_append_only
    (parseJson : String → Except String JValue)
    (qdb wiki : JValue → Except String String)
    (llm : List Message → NormResponse)
    (history : List Message) (input : String) (n : Nat) :
    ∃ t, (process_query parseJson qdb wiki llm history input n).2 =
      history ++ t := by
  obtain ⟨t, ht⟩ := processQueryLoop_appends llm
    (agentExecuteTool parseJson qdb wiki) n
    (history ++ [userMessage input]) ""
  exact ⟨[userMessage input] ++ t, by simp [process_query, ht]⟩

end Agent007
